import Mathlib

/-!
Verification of the DevOS agent core against its specification.

The Python modules under `ai/core/` are shallowly embedded below:

* `enforce.py`   — input sanitization and the command blocklist;
* `memory.py`    — the persistent memory store (state, pattern archive);
* `executor.py`  — the execution pipeline (setup / codegen / verify /
                   repair / commit) and the failure-classification heuristic;
* `command_parser.py` — the intent catalog and plan builders.

External effects (the filesystem, subprocesses, git, the optional LLM
backend) are modelled by an explicit environment record: each effectful
call reads its result from an oracle field, and `run_command` results are
indexed by call order.  Regular expressions from the source are transcribed
into a small backtracking regex engine (`RE`) whose alternation order,
greedy/lazy quantifiers and capture groups mirror the semantics of
Python `re.match` / `re.search` on the patterns that occur in the code.
-/

namespace DevOS

/-! ## Python string primitives -/

/-- Python `sub in s` (substring containment). -/
def containsSub (s sub : String) : Bool :=
  decide (sub.data <:+: s.data)

/-- Python `s.endswith(t)`. -/
def pyEndsWith (s t : String) : Bool :=
  decide (t.data <:+ s.data)

/-- Python `s.startswith(t)`. -/
def pyStartsWith (s t : String) : Bool :=
  decide (t.data <+: s.data)

/-- The characters Python `str.strip()` removes. -/
def pyIsSpace (c : Char) : Bool :=
  c == ' ' || c == '\t' || c == '\n' || c == '\r' || c == '\x0b' || c == '\x0c'

/-- Python `s.strip()`. -/
def pyStrip (s : String) : String :=
  ⟨((s.data.dropWhile pyIsSpace).reverse.dropWhile pyIsSpace).reverse⟩

/-- Python `s.lower()` (ASCII case folding; the inputs of interest are ASCII). -/
def pyLower (s : String) : String :=
  ⟨s.data.map Char.toLower⟩

/-- Python `s[:n]` for a nonnegative `n`. -/
def pyTake (n : Nat) (s : String) : String :=
  ⟨s.data.take n⟩

/-- Python `l[-n:]`: the last `n` elements (the whole list when shorter). -/
def pyLastN {α : Type} (n : Nat) (l : List α) : List α :=
  l.drop (l.length - n)

/-- Fuelled worker for `pyReplace` (each step consumes at least one
character, so fuel `s.length` never runs out). -/
def pyReplaceGo (pat rep : List Char) : Nat → List Char → List Char
  | 0, s => s
  | fuel + 1, s =>
    match s with
    | [] => []
    | c :: s2 =>
      if pat.isPrefixOf s && ! pat.isEmpty then
        rep ++ pyReplaceGo pat rep fuel (s.drop pat.length)
      else c :: pyReplaceGo pat rep fuel s2

/-- Python `s.replace(pat, rep)` for a nonempty `pat` (the only use in the
source replaces tab characters). -/
def pyReplace (s pat rep : String) : String :=
  ⟨pyReplaceGo pat.data rep.data s.data.length s.data⟩

/-! ## `executor.py` — failure classification (`ExecutionPipeline._is_test_failure`) -/

/-- The fixed failure-indicator substrings of `_is_test_failure`. -/
def failure_indicators : List String :=
  [ "Traceback (most recent call last)",
    "FAILED",
    "Error",
    "AssertionError",
    "SyntaxError",
    "IndentationError",
    "NameError",
    "TypeError",
    "ValueError",
    "ImportError",
    "ModuleNotFoundError",
    "ERRORS" ]

/-- `ExecutionPipeline._is_test_failure(output)`: `none` models Python `None`. -/
def is_test_failure : Option String → Bool
  | none => true
  | some output_str =>
    let has_failure := failure_indicators.any (fun ind => containsSub output_str ind)
    let has_success := containsSub output_str "OK" || containsSub output_str "passed"
        || pyEndsWith (pyStrip output_str) "0"
    if has_success && ! containsSub output_str "Traceback" then false else has_failure

/-! ## `enforce.py` — `InputSanitizer.sanitize_input` -/

/-- The character class `[\x00-\x08\x0b\x0c\x0e-\x1f\x7f]` removed by
`sanitize_input` (all ASCII control characters except tab, newline
and carriage return). -/
def ctlStripped (c : Char) : Bool :=
  c.toNat ≤ 0x08 || c.toNat == 0x0b || c.toNat == 0x0c
    || (0x0e ≤ c.toNat && c.toNat ≤ 0x1f) || c.toNat == 0x7f

/-- `InputSanitizer.sanitize_input(text)`: strip the control-character class,
then truncate to 4096 characters. -/
def sanitize_input (text : String) : String :=
  if text = "" then ""
  else ⟨(text.data.filter (fun c => ! ctlStripped c)).take 4096⟩

/-! ## `memory.py` — the persistent memory store

Persistence is modelled by an explicit list of save events: every mutating
operation returns, next to the new in-memory store, the sequence of
whole-file writes it performs (in order). -/

/-- The `state.json` record (timestamps are modelled by the clock value
passed to each operation). -/
structure AgentState where
  boot_count : Int
  total_goals_completed : Int
  total_goals_failed : Int
  total_commands_executed : Int
  last_active_project : Option String
  last_boot : Option Nat
deriving Repr, DecidableEq

/-- The default state used when `state.json` is absent or corrupt. -/
def default_state : AgentState :=
  { boot_count := 0
    total_goals_completed := 0
    total_goals_failed := 0
    total_commands_executed := 0
    last_active_project := none
    last_boot := none }

/-- One entry of the pattern archive (`error` is only set by failures). -/
structure PatternRec where
  goal : String
  approach : List String
  error : Option String := none
  timestamp : Nat
deriving Repr, DecidableEq

/-- The `patterns.json` record. -/
structure Patterns where
  successful_patterns : List PatternRec
  failed_patterns : List PatternRec
deriving Repr, DecidableEq

/-- Default patterns record when `patterns.json` is absent or corrupt. -/
def default_patterns : Patterns :=
  { successful_patterns := [], failed_patterns := [] }

/-- A project-registry entry (fields beyond the claims are kept abstract
as the registration-time data). -/
structure ProjectRec where
  path : String
  description : String
  language : String
  created : Nat
  last_modified : Nat
  commit_count : Int
  test_pass : Option Bool
deriving Repr, DecidableEq

/-- The in-memory `Memory` object. -/
structure MemStore where
  state : AgentState
  projects : List (String × ProjectRec)
  patterns : Patterns
deriving Repr, DecidableEq

/-- A whole-file persistence event. -/
inductive SaveEvent where
  | stateFile (s : AgentState)
  | projectsFile (p : List (String × ProjectRec))
  | patternsFile (p : Patterns)
deriving Repr, DecidableEq

/-- `Memory.__init__`: load each collection (or its default), then increment
`boot_count`, stamp `last_boot` and persist the state file immediately. -/
def memory_init (loadedState : Option AgentState)
    (loadedProjects : Option (List (String × ProjectRec)))
    (loadedPatterns : Option Patterns) (now : Nat) : MemStore × List SaveEvent :=
  let st0 := loadedState.getD default_state
  let st1 := { st0 with boot_count := st0.boot_count + 1, last_boot := some now }
  ({ state := st1
     projects := loadedProjects.getD []
     patterns := loadedPatterns.getD default_patterns },
   [SaveEvent.stateFile st1])

/-- `Memory.record_success`: append to the successful-pattern list, keep the
last 100 entries, persist patterns, bump the completed counter, persist state. -/
def record_success (m : MemStore) (goal_description : String)
    (approach : List String) (now : Nat) : MemStore × List SaveEvent :=
  let entry : PatternRec := { goal := goal_description, approach := approach, timestamp := now }
  let pat1 := { m.patterns with
    successful_patterns := pyLastN 100 (m.patterns.successful_patterns ++ [entry]) }
  let st1 := { m.state with total_goals_completed := m.state.total_goals_completed + 1 }
  ({ m with patterns := pat1, state := st1 },
   [SaveEvent.patternsFile pat1, SaveEvent.stateFile st1])

/-- `Memory.record_failure`: the failed-pattern counterpart (the error text
is truncated to 500 characters). -/
def record_failure (m : MemStore) (goal_description : String)
    (approach : List String) (error : String) (now : Nat) : MemStore × List SaveEvent :=
  let entry : PatternRec :=
    { goal := goal_description, approach := approach
      error := some (pyTake 500 error), timestamp := now }
  let pat1 := { m.patterns with
    failed_patterns := pyLastN 100 (m.patterns.failed_patterns ++ [entry]) }
  let st1 := { m.state with total_goals_failed := m.state.total_goals_failed + 1 }
  ({ m with patterns := pat1, state := st1 },
   [SaveEvent.patternsFile pat1, SaveEvent.stateFile st1])

/-! ## A small backtracking regex engine

Just enough of Python `re` for the patterns occurring in the source:
single-character classes, concatenation, ordered alternation, greedy `?`,
greedy and lazy character-class quantifiers, capture groups, and `$`.
Matching follows Python's leftmost, first-alternative, greedy-with-
backtracking strategy, so match existence and captured groups agree with
`re.match` / `re.search` on the transcribed patterns. -/

inductive RE where
  | eps : RE
  | chr (p : Char → Bool) : RE
  | cat (a b : RE) : RE
  | alt (a b : RE) : RE
  | opt (a : RE) : RE
  | starC (p : Char → Bool) : RE
  | plusC (p : Char → Bool) : RE
  | starLazyC (p : Char → Bool) : RE
  | grp (n : Nat) (a : RE) : RE
  | eos : RE

/-- Captured groups: group number paired with the captured characters. -/
abbrev Caps := List (Nat × List Char)

/-- Greedy `p*`: consume as many `p`-characters as possible, backtracking
one character at a time into the continuation `k`. -/
def starGreedy (p : Char → Bool) : List Char → Caps → (List Char → Caps → Option Caps) → Option Caps
  | [], g, k => k [] g
  | c :: s, g, k =>
    if p c then
      match starGreedy p s g k with
      | some r => some r
      | none => k (c :: s) g
    else k (c :: s) g

/-- Lazy `p*?`: try the continuation first, then consume one more character. -/
def starLazy (p : Char → Bool) (k : List Char → Caps → Option Caps) : List Char → Caps → Option Caps
  | s, g =>
    match k s g with
    | some r => some r
    | none =>
      match s with
      | [] => none
      | c :: s2 => if p c then starLazy p k s2 g else none

/-- CPS matcher: `matchRE r s g k` matches `r` against a prefix of `s`
with accumulated captures `g`, passing the rest to `k`. -/
def matchRE : RE → List Char → Caps → (List Char → Caps → Option Caps) → Option Caps
  | .eps, s, g, k => k s g
  | .chr _, [], _, _ => none
  | .chr p, c :: s, g, k => if p c then k s g else none
  | .cat a b, s, g, k => matchRE a s g (fun s2 g2 => matchRE b s2 g2 k)
  | .alt a b, s, g, k =>
    (match matchRE a s g k with
     | some r => some r
     | none => matchRE b s g k)
  | .opt a, s, g, k =>
    (match matchRE a s g k with
     | some r => some r
     | none => k s g)
  | .starC p, s, g, k => starGreedy p s g k
  | .plusC _, [], _, _ => none
  | .plusC p, c :: s, g, k => if p c then starGreedy p s g k else none
  | .starLazyC p, s, g, k => starLazy p k s g
  | .grp n a, s, g, k =>
    matchRE a s g (fun s2 g2 => k s2 ((n, s.take (s.length - s2.length)) :: g2))
  | .eos, s, g, k =>
    -- Python `$` (no MULTILINE): end of string, or just before a final newline.
    if s = [] || s = ['\n'] then k s g else none

/-- `re.match(r, text)`: anchored at the start, returning captures on success. -/
def reMatch (r : RE) (text : String) : Option Caps :=
  matchRE r text.data [] (fun _ g => some g)

/-- Boolean form of `reMatch`. -/
def reMatchB (r : RE) (text : String) : Bool :=
  (reMatch r text).isSome

/-- `re.search(r, text)`: try successive start positions, leftmost first. -/
def reSearchList (r : RE) : List Char → Option Caps
  | [] => matchRE r [] [] (fun _ g => some g)
  | c :: s2 =>
    match matchRE r (c :: s2) [] (fun _ g => some g) with
    | some g => some g
    | none => reSearchList r s2

/-- `re.search` on a string. -/
def reSearch (r : RE) (text : String) : Option Caps :=
  reSearchList r text.data

/-- Boolean form of `reSearch` (Python truthiness of the match object). -/
def reSearchB (r : RE) (text : String) : Bool :=
  (reSearch r text).isSome

/-- `match.group(i)` (a group that did not participate yields `none`). -/
def pyGroup (g : Caps) (i : Nat) : Option String :=
  (g.find? (fun e => e.fst == i)).map (fun e => ⟨e.snd⟩)

/-- `match.lastindex or 0`: the highest-numbered group that participated. -/
def pyLastIndex (g : Caps) : Nat :=
  g.foldl (fun acc e => max acc e.fst) 0

/-! ### Pattern-building helpers -/

/-- A case-insensitive literal character (patterns compiled with `re.IGNORECASE`). -/
def lit (c : Char) : RE := .chr (fun x => x.toLower == c.toLower)

/-- A case-sensitive literal character. -/
def litCS (c : Char) : RE := .chr (fun x => x == c)

/-- A case-insensitive literal string. -/
def litStr (s : String) : RE := s.data.foldr (fun c r => .cat (lit c) r) .eps

/-- A case-sensitive literal string. -/
def litStrCS (s : String) : RE := s.data.foldr (fun c r => .cat (litCS c) r) .eps

/-- Python `\s` (ASCII). -/
def wsp (c : Char) : Bool :=
  c == ' ' || c == '\t' || c == '\n' || c == '\r' || c == '\x0b' || c == '\x0c'

/-- Python `\w` (ASCII subset: the inputs of interest are ASCII). -/
def wordc (c : Char) : Bool := c.isAlphanum || c == '_'

/-- Python `\d`. -/
def digitc (c : Char) : Bool := c.isDigit

/-- Python `.` without DOTALL. -/
def dotc (c : Char) : Bool := c != '\n'

/-- Python `.` with DOTALL. -/
def dotAll (_ : Char) : Bool := true

/-- Ordered alternation of a nonempty list of branches. -/
def altList : List RE → RE
  | [] => .eps
  | [r] => r
  | r :: rs => .alt r (altList rs)

/-- Concatenation of a list of regexes. -/
def catList : List RE → RE
  | [] => .eps
  | [r] => r
  | r :: rs => .cat r (catList rs)

/-! ## `enforce.py` — `InputSanitizer` command and path safety -/

/-- `r"rm\s+-rf\s+/\s*$"` — recursive root deletion. -/
def fpRmRfRoot : RE :=
  catList [litStr "rm", .plusC wsp, litStr "-rf", .plusC wsp, lit '/', .starC wsp, .eos]

/-- `r"rm\s+-rf\s+/\*"`. -/
def fpRmRfRootStar : RE :=
  catList [litStr "rm", .plusC wsp, litStr "-rf", .plusC wsp, litStr "/*"]

/-- `r":\(\)\s*\{"` — fork bomb. -/
def fpForkBomb : RE :=
  catList [litStr ":()", .starC wsp, lit (Char.ofNat 123)]

/-- `r"dd\s+if=/dev/(zero|random|urandom)\s+of=/dev/sd"`. -/
def fpDdDevice : RE :=
  catList [litStr "dd", .plusC wsp, litStr "if=/dev/",
    .grp 1 (altList [litStr "zero", litStr "random", litStr "urandom"]),
    .plusC wsp, litStr "of=/dev/sd"]

/-- `r"mkfs\."` — filesystem formatting. -/
def fpMkfs : RE := litStr "mkfs."

/-- `r">\s*/dev/sd"` — raw device writes. -/
def fpDevWrite : RE :=
  catList [lit '>', .starC wsp, litStr "/dev/sd"]

/-- `r"mv\s+/\s"`. -/
def fpMvRoot : RE :=
  catList [litStr "mv", .plusC wsp, lit '/', .chr wsp]

/-- `r"chmod\s+-R\s+777\s+/\s*$"` — privileged recursive chmod. -/
def fpChmod : RE :=
  catList [litStr "chmod", .plusC wsp, litStr "-R", .plusC wsp, litStr "777",
    .plusC wsp, lit '/', .starC wsp, .eos]

/-- `r"wget.*\|\s*(ba)?sh"` — remote-script piping. -/
def fpWgetPipe : RE :=
  catList [litStr "wget", .starC dotc, lit '|', .starC wsp, .opt (.grp 1 (litStr "ba")),
    litStr "sh"]

/-- `r"curl.*\|\s*(ba)?sh"`. -/
def fpCurlPipe : RE :=
  catList [litStr "curl", .starC dotc, lit '|', .starC wsp, .opt (.grp 1 (litStr "ba")),
    litStr "sh"]

/-- `r"python3?\s+-c\s+.*import\s+os.*system.*rm"`. -/
def fpPythonOsSystem : RE :=
  catList [litStr "python", .opt (lit '3'), .plusC wsp, litStr "-c", .plusC wsp,
    .starC dotc, litStr "import", .plusC wsp, litStr "os", .starC dotc,
    litStr "system", .starC dotc, litStr "rm"]

/-- `InputSanitizer.FORBIDDEN_PATTERNS`, in declared order, compiled with
`re.IGNORECASE` (the literal builders above fold case). -/
def FORBIDDEN_PATTERNS : List RE :=
  [ fpRmRfRoot, fpRmRfRootStar, fpForkBomb, fpDdDevice, fpMkfs, fpDevWrite,
    fpMvRoot, fpChmod, fpWgetPipe, fpCurlPipe, fpPythonOsSystem ]

/-- `InputSanitizer.is_safe_command`: false as soon as any forbidden pattern
is found anywhere in the command (`re.search`). -/
def is_safe_command (command : String) : Bool :=
  ! FORBIDDEN_PATTERNS.any (fun p => reSearchB p command)

/-- `InputSanitizer.PROTECTED_PATHS`. -/
def PROTECTED_PATHS : List String :=
  [ "/init", "/ai/core/main.py", "/ai/core/enforce.py", "/ai/core/tools.py",
    "/ai/core/memory.py", "/ai/core/command_parser.py", "/ai/core/system_prompt.txt",
    "/bin/", "/sbin/", "/usr/bin/", "/usr/sbin/", "/proc/", "/sys/", "/dev/" ]

/-- `InputSanitizer.is_safe_path`: reads always pass; writes/deletes are
rejected on a protected prefix. -/
def is_safe_path (path : String) (operation : String) : Bool :=
  if operation == "read" then true
  else ! PROTECTED_PATHS.any (fun pref => pyStartsWith path pref)

/-! ## `executor.py` — the execution pipeline

External effects are read from an `Env` oracle: `run n cmd` is the output of
the `n`-th `run_command` call (file writes are abstracted into the oracle:
the output of a later check already reflects any fix applied before it). -/

/-- A goal dict: optional keys are `Option`s (`none` models an absent key). -/
structure Goal where
  name : Option String := none
  description : Option String := none
  files : Option (List (String × String)) := none
  test_cmd : Option String := none
deriving Repr

/-- A stage report entry. -/
structure Stage where
  name : String
  status : String
  detail : String
  command : Option String := none
deriving Repr, DecidableEq

/-- The pipeline report. -/
structure Report where
  goal : String
  path : String
  stages : List Stage
  success : Bool
deriving Repr, DecidableEq

/-- An LLM project plan (`plan["files"]`, `plan["test_cmd"]`). -/
structure LlmPlan where
  files : Option (List (String × String)) := none
  test_cmd : Option String := none

/-- The effect oracle for one pipeline run. -/
structure Env where
  /-- `os.path.exists(project_path)` at setup time. -/
  pathExists : Bool
  /-- output of the `n`-th `run_command(cmd, ...)` call of this run. -/
  run : Nat → String → String
  /-- result text of `git_commit`. -/
  commitResult : String
  /-- `self.llm and self.llm.is_available()`. -/
  llmAvailable : Bool
  /-- `llm.generate_project_plan(desc)` (`none`: `None` or falsy). -/
  llmPlan : String → Option LlmPlan
  /-- `llm.generate_code(desc, filename=...)`. -/
  llmCode : String → Option String → Option String
  /-- `llm.generate_fix(code, error_msg, filename)`. -/
  llmFix : String → String → String → Option String
  /-- `read_file(path)` (returns an `ERROR`-prefixed string on failure). -/
  readFile : String → String
  /-- the `.py` files listed in the project directory (`_llm_repair`). -/
  pyFiles : List String
  /-- `detect_project_type(project_path)`. -/
  projectTypes : List String

/-- Python truthiness of an optional string (`None` and `""` are falsy). -/
def pyTruthyStr : Option String → Bool
  | none => false
  | some s => s != ""

/-- `ExecutionPipeline.MAX_FIX_ATTEMPTS`. -/
def MAX_FIX_ATTEMPTS : Nat := 3

/-- The default check command of `_stage_repair`. -/
def defaultCheckCmd : String := "python3 -m py_compile *.py 2>&1"

/-- The auto-detected python check command of `_stage_verify`. -/
def autoVerifyCmd : String :=
  "python3 -m unittest discover -s . -v 2>&1 || python3 -m py_compile *.py 2>&1"

/-- `_stage_setup`: always ok; detail records creation vs. existence. -/
def stage_setup (env : Env) : Stage :=
  if env.pathExists then { name := "setup", status := "ok", detail := "exists" }
  else { name := "setup", status := "ok", detail := "created" }

/-- `_llm_codegen`: plan-driven generation, falling back to a single file;
a test command returned by the plan is attached to the goal. -/
def llm_codegen (env : Env) (goal : Goal) : Goal × List String :=
  let desc := goal.description.getD ""
  match env.llmPlan desc with
  | some plan =>
    match plan.files with
    | some pfiles =>
      let written := pfiles.filterMap (fun fd =>
        if pyTruthyStr (env.llmCode fd.snd (some fd.fst)) then some fd.fst else none)
      let goal1 :=
        match plan.test_cmd with
        | some t => { goal with test_cmd := some t }
        | none => goal
      (goal1, written)
    | none =>
      if pyTruthyStr (env.llmCode desc none) then (goal, ["main.py"]) else (goal, [])
  | none =>
    if pyTruthyStr (env.llmCode desc none) then (goal, ["main.py"]) else (goal, [])

/-- `_stage_codegen`: template files verbatim, else LLM generation,
else a minimal skeleton `main.py`. -/
def stage_codegen (env : Env) (goal : Goal) : Goal × Stage :=
  let (goal1, files_written) :=
    match goal.files with
    | some fs => (goal, fs.map Prod.fst)
    | none =>
      if env.llmAvailable then llm_codegen env goal
      else (goal, ["main.py"])
  (goal1,
   { name := "codegen", status := "ok"
     detail := "wrote " ++ toString files_written.length ++ " files: "
       ++ String.intercalate ", " files_written })

/-- `_stage_verify`: run the goal test command (or an auto-detected check)
and classify; with nothing to run, pass trivially.  Returns the stage, the
verdict and the next `run_command` index. -/
def stage_verify (env : Env) (goal : Goal) (idx : Nat) : Stage × Bool × Nat :=
  match goal.test_cmd with
  | some test_cmd =>
    let output := env.run idx test_cmd
    let passed := ! is_test_failure (some output)
    ({ name := "verify", status := if passed then "ok" else "fail"
       detail := pyTake 300 output, command := some test_cmd }, passed, idx + 1)
  | none =>
    if env.projectTypes.contains "python" then
      let output := env.run idx autoVerifyCmd
      let passed := ! is_test_failure (some output)
      ({ name := "verify", status := if passed then "ok" else "fail"
         detail := pyTake 300 output }, passed, idx + 1)
    else
      ({ name := "verify", status := "ok"
         detail := "no tests configured, syntax check only" }, true, idx)

/-- `r"no module named '(\w+)'"` (case-sensitive, `re.search`). -/
def moduleNameRE : RE :=
  catList [litStrCS "no module named ", litCS (Char.ofNat 39),
    .grp 1 (.plusC wordc), litCS (Char.ofNat 39)]

/-- `r'File "([^"]+)", line (\d+)'`. -/
def fileLineRE : RE :=
  catList [litStrCS "File ", litCS (Char.ofNat 34),
    .grp 1 (.plusC (fun c => c != Char.ofNat 34)), litCS (Char.ofNat 34),
    litStrCS ", line ", .grp 2 (.plusC digitc)]

/-- `r'File "([^"]+)"'`. -/
def fileRE : RE :=
  catList [litStrCS "File ", litCS (Char.ofNat 34),
    .grp 1 (.plusC (fun c => c != Char.ofNat 34)), litCS (Char.ofNat 34)]

/-- The exception raised when the `syntaxerror` branch of `_pattern_repair`
runs without the `importerror` branch having executed `import re` first:
`re` is a function-local name bound only inside that earlier branch. -/
def unboundLocalRe : String :=
  "UnboundLocalError: local variable re referenced before assignment"

/-- `_pattern_repair`: the no-LLM fixed pattern table, first match wins.
`Except.error` models an uncaught Python exception. -/
def pattern_repair (env : Env) (error_msg : String) : Except String Bool :=
  let error_lower := pyLower error_msg
  -- `import re` executes only inside the importerror/modulenotfounderror branch
  let reImported := containsSub error_lower "importerror"
      || containsSub error_lower "modulenotfounderror"
  if reImported && (reSearch moduleNameRE error_msg).isSome then
    Except.ok false          -- missing module: logged only, not fixed
  else if containsSub error_lower "syntaxerror" then
    if ! reImported then Except.error unboundLocalRe
    else if (reSearch fileLineRE error_msg).isSome then
      Except.ok false        -- syntax error located: logged only, not fixed
    else pattern_repair_rest env error_lower error_msg
  else pattern_repair_rest env error_lower error_msg
where
  /-- the indentationerror / nameerror tail of the table (`tail` is the
  shared fallthrough: the nameerror rule and the final `return False`). -/
  pattern_repair_rest (env : Env) (error_lower error_msg : String) : Except String Bool :=
    let tail : Except String Bool :=
      if containsSub error_lower "nameerror" then Except.ok false else Except.ok false
    if containsSub error_lower "indentationerror" then
      match reSearch fileRE error_msg with
      | some caps =>
        let filepath := (pyGroup caps 1).getD ""
        let code := env.readFile filepath
        if ! pyStartsWith code "ERROR" then
          let fixed := pyReplace code "\t" "    "
          if fixed != code then Except.ok true else tail
        else tail
      | none => tail
    else tail

/-- `_llm_repair`: try each candidate `.py` file; apply the first fix whose
text is truthy and differs from the current contents. -/
def llm_repair (env : Env) (project_path error_msg : String) : Bool :=
  go env.pyFiles
where
  go : List String → Bool
    | [] => false
    | filename :: rest =>
      let code := env.readFile (project_path ++ "/" ++ filename)
      if pyStartsWith code "ERROR" then go rest
      else
        match env.llmFix code error_msg filename with
        | some fixed_code =>
          if fixed_code != "" && fixed_code != code then true else go rest
        | none => go rest

/-- The stage appended when the repair loop gives up. -/
def repairFailStage : Stage :=
  { name := "repair", status := "fail"
    detail := "failed after " ++ toString MAX_FIX_ATTEMPTS ++ " attempts" }

/-- The body of `_stage_repair`'s `for attempt in range(3)` loop, with
`left` attempts remaining.  Returns the stages appended, the next
`run_command` index, and the verdict (`error` models an escaping exception,
in which case no repair stage has been appended). -/
def repairGo (env : Env) (goal : Goal) (project_path : String) :
    Nat → Nat → List Stage × Nat × Except String Bool
  | 0, idx => ([repairFailStage], idx, Except.ok false)
  | left + 1, idx =>
    let test_cmd := goal.test_cmd.getD defaultCheckCmd
    let error_output := env.run idx test_cmd
    if ! is_test_failure (some error_output) then
      ([{ name := "repair", status := "ok"
          detail := "fixed on attempt " ++ toString (MAX_FIX_ATTEMPTS - left) }],
       idx + 1, Except.ok true)
    else
      match
        (if env.llmAvailable then Except.ok (llm_repair env project_path error_output)
         else pattern_repair env error_output) with
      | Except.error e => ([], idx + 1, Except.error e)
      | Except.ok fixed =>
        if fixed then repairGo env goal project_path left (idx + 1)
        else ([repairFailStage], idx + 1, Except.ok false)

/-- `_stage_repair`. -/
def stage_repair (env : Env) (goal : Goal) (project_path : String) (idx : Nat) :
    List Stage × Nat × Except String Bool :=
  repairGo env goal project_path MAX_FIX_ATTEMPTS idx

/-- `_stage_commit`: always ok; the commit result only feeds the detail text. -/
def stage_commit (env : Env) (goal : Goal) : Stage :=
  let _desc := goal.description.getD "auto-generated project"
  { name := "commit", status := "ok", detail := pyTake 200 env.commitResult }

/-- `ExecutionPipeline.execute_goal`: the full pipeline.  Any exception is
caught at the boundary and recorded as an `error` stage. -/
def execute_goal (env : Env) (goal : Goal) (project_path : String) : Bool × Report :=
  let base : Report :=
    { goal := goal.description.getD "unknown", path := project_path
      stages := [], success := false }
  let setup := stage_setup env
  let (goal1, codegen) := stage_codegen env goal
  let (verify, verify_passed, idx1) := stage_verify env goal1 0
  if verify_passed then
    let commit := stage_commit env goal1
    (true, { base with stages := [setup, codegen, verify, commit], success := true })
  else
    match stage_repair env goal1 project_path idx1 with
    | (rstages, _, Except.ok true) =>
      let commit := stage_commit env goal1
      (true, { base with stages := [setup, codegen, verify] ++ rstages ++ [commit],
                         success := true })
    | (rstages, _, Except.ok false) =>
      (false, { base with stages := [setup, codegen, verify] ++ rstages })
    | (rstages, _, Except.error e) =>
      (false, { base with stages := ([setup, codegen, verify] ++ rstages
                  ++ [{ name := "error", status := "fail", detail := e }]) })

/-! ## `command_parser.py` — JSON values and the `TOOL:` protocol -/

/-- A JSON value (numbers are modelled as integers: the protocol payloads
of this system are flat string/number objects; floats are out of model). -/
inductive JVal where
  | jnull : JVal
  | jbool (b : Bool) : JVal
  | jnum (n : Int) : JVal
  | jstr (s : String) : JVal
  | jarr (xs : List JVal) : JVal
  | jobj (fields : List (String × JVal)) : JVal
deriving Repr

/-- Drop JSON whitespace. -/
def jwsDrop (s : List Char) : List Char :=
  s.dropWhile (fun c => c == ' ' || c == '\t' || c == '\n' || c == '\r')

/-- Parse a JSON string body (after the opening quote). -/
def jparseStr : Nat → List Char → Option (String × List Char)
  | 0, _ => none
  | fuel + 1, s =>
    match s with
    | [] => none
    | c :: rest =>
      if c == Char.ofNat 34 then some ("", rest)
      else if c == '\\' then
        match rest with
        | [] => none
        | e :: rest2 =>
          let dec : Option Char :=
            if e == 'n' then some '\n'
            else if e == 't' then some '\t'
            else if e == 'r' then some '\r'
            else if e == Char.ofNat 34 then some (Char.ofNat 34)
            else if e == '\\' then some '\\'
            else if e == '/' then some '/'
            else if e == 'b' then some (Char.ofNat 8)
            else if e == 'f' then some (Char.ofNat 12)
            else none
          match dec with
          | some d =>
            match jparseStr fuel rest2 with
            | some (t, r) => some (⟨d :: t.data⟩, r)
            | none => none
          | none => none
      else
        match jparseStr fuel rest with
        | some (t, r) => some (⟨c :: t.data⟩, r)
        | none => none

/-- Parse a JSON number (integers only; a fraction/exponent is out of model). -/
def jparseNum (s : List Char) : Option (JVal × List Char) :=
  let negs := match s with
    | c :: r => if c == '-' then (true, r) else (false, s)
    | [] => (false, s)
  let digs := negs.snd.takeWhile Char.isDigit
  let rest := negs.snd.dropWhile Char.isDigit
  if digs.isEmpty then none
  else
    let v : Int := Int.ofNat (digs.foldl (fun a c => a * 10 + (c.toNat - 48)) 0)
    let v := if negs.fst then -v else v
    match rest with
    | c :: _ => if c == '.' || c == 'e' || c == 'E' then none else some (JVal.jnum v, rest)
    | [] => some (JVal.jnum v, rest)

mutual

/-- Parse one JSON value. -/
def jparseVal : Nat → List Char → Option (JVal × List Char)
  | 0, _ => none
  | fuel + 1, s0 =>
    match jwsDrop s0 with
    | [] => none
    | c :: rest =>
      if c == Char.ofNat 123 then
        match jwsDrop rest with
        | c2 :: r2 =>
          if c2 == Char.ofNat 125 then some (JVal.jobj [], r2)
          else
            match jparseMembers fuel (jwsDrop rest) with
            | some (ms, r) => some (JVal.jobj ms, r)
            | none => none
        | [] => none
      else if c == '[' then
        match jwsDrop rest with
        | c2 :: r2 =>
          if c2 == ']' then some (JVal.jarr [], r2)
          else
            match jparseItems fuel (jwsDrop rest) with
            | some (xs, r) => some (JVal.jarr xs, r)
            | none => none
        | [] => none
      else if c == Char.ofNat 34 then
        match jparseStr fuel rest with
        | some (str, r) => some (JVal.jstr str, r)
        | none => none
      else if c == 't' then
        if ['r', 'u', 'e'].isPrefixOf rest then some (JVal.jbool true, rest.drop 3) else none
      else if c == 'f' then
        if ['a', 'l', 's', 'e'].isPrefixOf rest then some (JVal.jbool false, rest.drop 4) else none
      else if c == 'n' then
        if ['u', 'l', 'l'].isPrefixOf rest then some (JVal.jnull, rest.drop 3) else none
      else if c == '-' || c.isDigit then jparseNum (c :: rest)
      else none

/-- Parse `"key": value (, "key": value)*` up to and including the closing brace. -/
def jparseMembers : Nat → List Char → Option (List (String × JVal) × List Char)
  | 0, _ => none
  | fuel + 1, s =>
    match jwsDrop s with
    | c :: rest =>
      if c == Char.ofNat 34 then
        match jparseStr fuel rest with
        | some (key, r1) =>
          match jwsDrop r1 with
          | ':' :: r2 =>
            match jparseVal fuel r2 with
            | some (v, r3) =>
              match jwsDrop r3 with
              | ',' :: r4 =>
                match jparseMembers fuel r4 with
                | some (ms, r5) => some ((key, v) :: ms, r5)
                | none => none
              | c2 :: r4 =>
                if c2 == Char.ofNat 125 then some ([(key, v)], r4) else none
              | [] => none
            | none => none
          | _ => none
        | none => none
      else none
    | [] => none

/-- Parse `value (, value)*` up to and including the closing bracket. -/
def jparseItems : Nat → List Char → Option (List JVal × List Char)
  | 0, _ => none
  | fuel + 1, s =>
    match jparseVal fuel s with
    | some (v, r1) =>
      match jwsDrop r1 with
      | ',' :: r2 =>
        match jparseItems fuel r2 with
        | some (xs, r3) => some (v :: xs, r3)
        | none => none
      | ']' :: r2 => some ([v], r2)
      | _ => none
    | none => none

end

/-- `json.loads` (within the model restrictions noted above). -/
def json_loads (s : String) : Option JVal :=
  match jparseVal (s.length + 8) s.data with
  | some (v, r) => if (jwsDrop r).isEmpty then some v else none
  | none => none

/-! ## `command_parser.py` — plans and the intent catalog -/

/-- One tool invocation of an action plan. -/
structure Action where
  tool : String
  args : JVal
deriving Repr

/-- An action plan (absent dict keys are `none` / the listed defaults). -/
structure Plan where
  intent : String
  name : Option String := none
  path : Option String := none
  description : Option String := none
  feature : Option String := none
  raw : Option String := none
  error : Option String := none
  actions : List Action := []
  requires_generation : Bool := false
deriving Repr

/-- The parser object: `project_root` plus the result of the
`_get_latest_project` directory scan (an external effect). -/
structure ParserCtx where
  project_root : String := "/projects"
  latest_project : Option String := none

/-- Build a one-entry JSON-object argument list. -/
def jobj1 (k : String) (v : String) : JVal := JVal.jobj [(k, JVal.jstr v)]

/-- Python `x or default` for strings (empty is falsy). -/
def pyOrS (s d : String) : String := if s = "" then d else s

/-- Python `x or default` for optional strings. -/
def pyOrOpt (o : Option String) (d : String) : String :=
  match o with
  | some s => pyOrS s d
  | none => d

/-- `os.path.basename`. -/
def pyBasename (p : String) : String :=
  ⟨go p.data []⟩
where
  go : List Char → List Char → List Char
    | [], acc => acc.reverse
    | c :: s, acc => if c == '/' then go s [] else go s (c :: acc)

/-- `r'TOOL:\s*(\w+)\s*ARGS:\s*(.*)'` with `re.DOTALL`. -/
def toolProtocolRE : RE :=
  catList [litStrCS "TOOL:", .starC wsp, .grp 1 (.plusC wordc), .starC wsp,
    litStrCS "ARGS:", .starC wsp, .grp 2 (.starC dotAll)]

/-- `CommandParser._parse_tool_protocol`: malformed JSON yields no plan. -/
def parse_tool_protocol (text : String) : Option Plan :=
  match reMatch toolProtocolRE text with
  | some caps =>
    let tool_name := (pyGroup caps 1).getD ""
    let args_str := pyStrip ((pyGroup caps 2).getD "")
    if args_str = "" then
      some { intent := "tool_call", actions := [{ tool := tool_name, args := JVal.jobj [] }] }
    else
      match json_loads args_str with
      | some v => some { intent := "tool_call", actions := [{ tool := tool_name, args := v }] }
      | none => none
  | none => none

/-! ### The ordered intent catalog (`INTENT_PATTERNS`)

Each Python pattern is transcribed structurally; all are compiled
case-insensitively (`re.IGNORECASE` in `parse`). -/

/-- `r"(yeni|new)\s+(proje|project)\s+(?:oluştur|yarat|aç|create|init)\s*:?\s*(.*)"`. -/
def cpPat1 : RE :=
  catList [.grp 1 (altList [litStr "yeni", litStr "new"]), .plusC wsp,
    .grp 2 (altList [litStr "proje", litStr "project"]), .plusC wsp,
    altList [litStr "oluştur", litStr "yarat", litStr "aç", litStr "create", litStr "init"],
    .starC wsp, .opt (lit ':'), .starC wsp, .grp 3 (.starC dotc)]

/-- `r"(proje|project)\s+(oluştur|yarat|aç|create|init)\s*:?\s*(.*)"`. -/
def cpPat2 : RE :=
  catList [.grp 1 (altList [litStr "proje", litStr "project"]), .plusC wsp,
    .grp 2 (altList [litStr "oluştur", litStr "yarat", litStr "aç", litStr "create", litStr "init"]),
    .starC wsp, .opt (lit ':'), .starC wsp, .grp 3 (.starC dotc)]

/-- `r"create\s+project\s+(.*)"`. -/
def cpPat3 : RE :=
  catList [litStr "create", .plusC wsp, litStr "project", .plusC wsp, .grp 1 (.starC dotc)]

/-- `r"init\s+project\s+(.*)"`. -/
def cpPat4 : RE :=
  catList [litStr "init", .plusC wsp, litStr "project", .plusC wsp, .grp 1 (.starC dotc)]

/-- `r"(api|rest|endpoint)\s*(yaz|oluştur|ekle|write|create|build)"`. -/
def caPat1 : RE :=
  catList [.grp 1 (altList [litStr "api", litStr "rest", litStr "endpoint"]), .starC wsp,
    .grp 2 (altList [litStr "yaz", litStr "oluştur", litStr "ekle", litStr "write",
      litStr "create", litStr "build"])]

/-- `r"(yaz|oluştur|create|build|write)\s+(bir\s+)?(api|rest|endpoint)"`. -/
def caPat2 : RE :=
  catList [.grp 1 (altList [litStr "yaz", litStr "oluştur", litStr "create", litStr "build",
      litStr "write"]), .plusC wsp,
    .opt (.grp 2 (catList [litStr "bir", .plusC wsp])),
    .grp 3 (altList [litStr "api", litStr "rest", litStr "endpoint"])]

/-- `r"(basit|simple)\s+(bir\s+)?(api|rest)\s*(yaz|oluştur|create)"`. -/
def caPat3 : RE :=
  catList [.grp 1 (altList [litStr "basit", litStr "simple"]), .plusC wsp,
    .opt (.grp 2 (catList [litStr "bir", .plusC wsp])),
    .grp 3 (altList [litStr "api", litStr "rest"]), .starC wsp,
    .grp 4 (altList [litStr "yaz", litStr "oluştur", litStr "create"])]

/-- `r"(yaz|oluştur|create|build|write)\s+(bir\s+)?(.*?)(\s+tool|\s+araç|\s+utility)?$"`. -/
def ctPat1 : RE :=
  catList [.grp 1 (altList [litStr "yaz", litStr "oluştur", litStr "create", litStr "build",
      litStr "write"]), .plusC wsp,
    .opt (.grp 2 (catList [litStr "bir", .plusC wsp])),
    .grp 3 (.starLazyC dotc),
    .opt (.grp 4 (altList [catList [.plusC wsp, litStr "tool"],
      catList [.plusC wsp, litStr "araç"], catList [.plusC wsp, litStr "utility"]])),
    .eos]

/-- `r"(ekle|add)\s+(.*)"`. -/
def afPat1 : RE :=
  catList [.grp 1 (altList [litStr "ekle", litStr "add"]), .plusC wsp, .grp 2 (.starC dotc)]

/-- `r"(.*)\s+(ekle|add)$"`. -/
def afPat2 : RE :=
  catList [.grp 1 (.starC dotc), .plusC wsp, .grp 2 (altList [litStr "ekle", litStr "add"]), .eos]

/-- `r"(test|testleri?)\s*(çalıştır|run|yap|koş)"`. -/
def rtPat1 : RE :=
  catList [.grp 1 (altList [litStr "test", catList [litStr "testler", .opt (lit 'i')]]),
    .starC wsp, .grp 2 (altList [litStr "çalıştır", litStr "run", litStr "yap", litStr "koş"])]

/-- `r"(çalıştır|run)\s+(test|testleri?)"`. -/
def rtPat2 : RE :=
  catList [.grp 1 (altList [litStr "çalıştır", litStr "run"]), .plusC wsp,
    .grp 2 (altList [litStr "test", catList [litStr "testler", .opt (lit 'i')]])]

/-- `r"run\s+tests?"`. -/
def rtPat3 : RE :=
  catList [litStr "run", .plusC wsp, litStr "test", .opt (lit 's')]

/-- `r"(build|derleme|derle)\s*(al|yap|et)?"`. -/
def bdPat1 : RE :=
  catList [.grp 1 (altList [litStr "build", litStr "derleme", litStr "derle"]), .starC wsp,
    .opt (.grp 2 (altList [litStr "al", litStr "yap", litStr "et"]))]

/-- `r"(al|yap)\s+(build|derleme)"`. -/
def bdPat2 : RE :=
  catList [.grp 1 (altList [litStr "al", litStr "yap"]), .plusC wsp,
    .grp 2 (altList [litStr "build", litStr "derleme"])]

/-- `r"docker(ize|la|le)?\s*(et|yap)?"`. -/
def dkPat1 : RE :=
  catList [litStr "docker", .opt (.grp 1 (altList [litStr "ize", litStr "la", litStr "le"])),
    .starC wsp, .opt (.grp 2 (altList [litStr "et", litStr "yap"]))]

/-- `r"(container|konteyner)\s*(oluştur|yap|et)"`. -/
def dkPat2 : RE :=
  catList [.grp 1 (altList [litStr "container", litStr "konteyner"]), .starC wsp,
    .grp 2 (altList [litStr "oluştur", litStr "yap", litStr "et"])]

/-- `r"(commit|kaydet)\s*(et|yap)?"`. -/
def goPat1 : RE :=
  catList [.grp 1 (altList [litStr "commit", litStr "kaydet"]), .starC wsp,
    .opt (.grp 2 (altList [litStr "et", litStr "yap"]))]

/-- `r"git\s+(commit|push|pull|status|log)"`. -/
def goPat2 : RE :=
  catList [litStr "git", .plusC wsp,
    .grp 1 (altList [litStr "commit", litStr "push", litStr "pull", litStr "status",
      litStr "log"])]

/-- `r"(listele|göster|list|show|ls)\s+(.*)"`. -/
def lsPat1 : RE :=
  catList [.grp 1 (altList [litStr "listele", litStr "göster", litStr "list", litStr "show",
    litStr "ls"]), .plusC wsp, .grp 2 (.starC dotc)]

/-- `r"(dosyalar|files|projeler|projects)\s*(listele|göster|list|show)"`. -/
def lsPat2 : RE :=
  catList [.grp 1 (altList [litStr "dosyalar", litStr "files", litStr "projeler",
    litStr "projects"]), .starC wsp,
    .grp 2 (altList [litStr "listele", litStr "göster", litStr "list", litStr "show"])]

/-- `r"(oku|read|cat|göster|show)\s+(.+\.\w+)"`. -/
def rdPat1 : RE :=
  catList [.grp 1 (altList [litStr "oku", litStr "read", litStr "cat", litStr "göster",
    litStr "show"]), .plusC wsp,
    .grp 2 (catList [.plusC dotc, lit '.', .plusC wordc])]

/-- `r"(düzelt|fix|debug|hata)\s*(.*)"`. -/
def fxPat1 : RE :=
  catList [.grp 1 (altList [litStr "düzelt", litStr "fix", litStr "debug", litStr "hata"]),
    .starC wsp, .grp 2 (.starC dotc)]

/-- `r"(.*)\s+(düzelt|fix)$"`. -/
def fxPat2 : RE :=
  catList [.grp 1 (.starC dotc), .plusC wsp, .grp 2 (altList [litStr "düzelt", litStr "fix"]),
    .eos]

/-- `r"^(python3?|pip|git|npm|node|cargo|go|make|gcc|g\+\+|sh|bash)\s+.*"`. -/
def shPat1 : RE :=
  catList [.grp 1 (altList [catList [litStr "python", .opt (lit '3')], litStr "pip",
    litStr "git", litStr "npm", litStr "node", litStr "cargo", litStr "go", litStr "make",
    litStr "gcc", litStr "g++", litStr "sh", litStr "bash"]), .plusC wsp, .starC dotc]

/-- `r"^(ls|cat|mkdir|cp|mv|rm|find|grep|chmod|chown)\s+.*"`. -/
def shPat2 : RE :=
  catList [.grp 1 (altList [litStr "ls", litStr "cat", litStr "mkdir", litStr "cp",
    litStr "mv", litStr "rm", litStr "find", litStr "grep", litStr "chmod", litStr "chown"]),
    .plusC wsp, .starC dotc]

/-- `INTENT_PATTERNS`: the fixed, ordered intent catalog. -/
def INTENT_PATTERNS : List (List RE × String) :=
  [ ([cpPat1, cpPat2, cpPat3, cpPat4], "create_project"),
    ([caPat1, caPat2, caPat3], "create_api"),
    ([ctPat1], "create_tool"),
    ([afPat1, afPat2], "add_feature"),
    ([rtPat1, rtPat2, rtPat3], "run_tests"),
    ([bdPat1, bdPat2], "build"),
    ([dkPat1, dkPat2], "dockerize"),
    ([goPat1, goPat2], "git_op"),
    ([lsPat1, lsPat2], "list"),
    ([rdPat1], "read_file"),
    ([fxPat1, fxPat2], "fix"),
    ([shPat1, shPat2], "shell") ]

/-- The literal `server_code` payload of `_plan_create_api`. -/
def apiServerTemplate : String :=
  "#!/usr/bin/env python3\n"
    ++ "\"\"\"Minimal HTTP API Server.\"\"\"\n"
    ++ "import json\n"
    ++ "import http.server\n"
    ++ "import socketserver\n"
    ++ "\n"
    ++ "PORT = 8080\n"
    ++ "DATA = \x7b\x7d\n"
    ++ "\n"
    ++ "class APIHandler(http.server.BaseHTTPRequestHandler):\n"
    ++ "    def do_GET(self):\n"
    ++ "        if self.path == \x27/health\x27:\n"
    ++ "            self._respond(200, \x7b\"status\": \"ok\"\x7d)\n"
    ++ "        elif self.path == \x27/data\x27:\n"
    ++ "            self._respond(200, \x7b\"data\": DATA\x7d)\n"
    ++ "        elif self.path.startswith(\x27/data/\x27):\n"
    ++ "            key = self.path.split(\x27/\x27)[-1]\n"
    ++ "            if key in DATA:\n"
    ++ "                self._respond(200, \x7bkey: DATA[key]\x7d)\n"
    ++ "            else:\n"
    ++ "                self._respond(404, \x7b\"error\": \"not found\"\x7d)\n"
    ++ "        else:\n"
    ++ "            self._respond(404, \x7b\"error\": \"not found\"\x7d)\n"
    ++ "\n"
    ++ "    def do_POST(self):\n"
    ++ "        length = int(self.headers.get(\x27Content-Length\x27, 0))\n"
    ++ "        body = self.rfile.read(length).decode()\n"
    ++ "        try:\n"
    ++ "            payload = json.loads(body)\n"
    ++ "            for k, v in payload.items():\n"
    ++ "                DATA[k] = v\n"
    ++ "            self._respond(201, \x7b\"stored\": payload\x7d)\n"
    ++ "        except json.JSONDecodeError:\n"
    ++ "            self._respond(400, \x7b\"error\": \"invalid json\"\x7d)\n"
    ++ "\n"
    ++ "    def do_DELETE(self):\n"
    ++ "        if self.path.startswith(\x27/data/\x27):\n"
    ++ "            key = self.path.split(\x27/\x27)[-1]\n"
    ++ "            if key in DATA:\n"
    ++ "                del DATA[key]\n"
    ++ "                self._respond(200, \x7b\"deleted\": key\x7d)\n"
    ++ "            else:\n"
    ++ "                self._respond(404, \x7b\"error\": \"not found\"\x7d)\n"
    ++ "        else:\n"
    ++ "            self._respond(400, \x7b\"error\": \"specify key\"\x7d)\n"
    ++ "\n"
    ++ "    def _respond(self, code, body):\n"
    ++ "        self.send_response(code)\n"
    ++ "        self.send_header(\x27Content-Type\x27, \x27application/json\x27)\n"
    ++ "        self.end_headers()\n"
    ++ "        self.wfile.write(json.dumps(body).encode())\n"
    ++ "\n"
    ++ "    def log_message(self, format, *args):\n"
    ++ "        pass  # Suppress default logging\n"
    ++ "\n"
    ++ "if __name__ == \x27__main__\x27:\n"
    ++ "    with socketserver.TCPServer((\"\", PORT), APIHandler) as httpd:\n"
    ++ "        print(f\"API listening on :\x7bPORT\x7d\")\n"
    ++ "        httpd.serve_forever()\n"

/-- The literal `test_code` payload of `_plan_create_api`. -/
def apiTestTemplate : String :=
  "#!/usr/bin/env python3\n"
    ++ "\"\"\"API Server Tests.\"\"\"\n"
    ++ "import unittest\n"
    ++ "import json\n"
    ++ "import threading\n"
    ++ "import http.client\n"
    ++ "import time\n"
    ++ "import sys\n"
    ++ "\n"
    ++ "sys.path.insert(0, \x27.\x27)\n"
    ++ "\n"
    ++ "class TestAPI(unittest.TestCase):\n"
    ++ "    @classmethod\n"
    ++ "    def setUpClass(cls):\n"
    ++ "        from server import APIHandler\n"
    ++ "        import socketserver\n"
    ++ "        cls.port = 9999\n"
    ++ "        cls.server = socketserver.TCPServer((\"\", cls.port), APIHandler)\n"
    ++ "        cls.thread = threading.Thread(target=cls.server.serve_forever)\n"
    ++ "        cls.thread.daemon = True\n"
    ++ "        cls.thread.start()\n"
    ++ "        time.sleep(0.5)\n"
    ++ "\n"
    ++ "    @classmethod\n"
    ++ "    def tearDownClass(cls):\n"
    ++ "        cls.server.shutdown()\n"
    ++ "\n"
    ++ "    def _request(self, method, path, body=None):\n"
    ++ "        conn = http.client.HTTPConnection(\"localhost\", self.port)\n"
    ++ "        headers = \x7b\x27Content-Type\x27: \x27application/json\x27\x7d if body else \x7b\x7d\n"
    ++ "        conn.request(method, path, body=json.dumps(body) if body else None, headers=headers)\n"
    ++ "        resp = conn.getresponse()\n"
    ++ "        data = json.loads(resp.read().decode())\n"
    ++ "        conn.close()\n"
    ++ "        return resp.status, data\n"
    ++ "\n"
    ++ "    def test_health(self):\n"
    ++ "        status, data = self._request(\"GET\", \"/health\")\n"
    ++ "        self.assertEqual(status, 200)\n"
    ++ "        self.assertEqual(data[\"status\"], \"ok\")\n"
    ++ "\n"
    ++ "    def test_post_and_get(self):\n"
    ++ "        status, data = self._request(\"POST\", \"/data\", \x7b\"key1\": \"value1\"\x7d)\n"
    ++ "        self.assertEqual(status, 201)\n"
    ++ "        status, data = self._request(\"GET\", \"/data/key1\")\n"
    ++ "        self.assertEqual(status, 200)\n"
    ++ "        self.assertEqual(data[\"key1\"], \"value1\")\n"
    ++ "\n"
    ++ "    def test_delete(self):\n"
    ++ "        self._request(\"POST\", \"/data\", \x7b\"delme\": \"val\"\x7d)\n"
    ++ "        status, data = self._request(\"DELETE\", \"/data/delme\")\n"
    ++ "        self.assertEqual(status, 200)\n"
    ++ "        status, data = self._request(\"GET\", \"/data/delme\")\n"
    ++ "        self.assertEqual(status, 404)\n"
    ++ "\n"
    ++ "    def test_not_found(self):\n"
    ++ "        status, data = self._request(\"GET\", \"/nonexistent\")\n"
    ++ "        self.assertEqual(status, 404)\n"
    ++ "\n"
    ++ "if __name__ == \x27__main__\x27:\n"
    ++ "    unittest.main()\n"

/-! ### Plan construction -/

/-- The stop-word list of `_extract_name`. -/
def extractStopwords : List String :=
  ["yeni", "new", "proje", "project", "oluştur", "create", "init", "yarat", "aç"]

/-- `CommandParser._extract_name`: scan capture groups from the last down to
group 1, skipping empty/short groups and stop-words; strip the winner. -/
def extract_name (caps : Caps) : Option String :=
  go (pyLastIndex caps)
where
  go : Nat → Option String
    | 0 => none
    | i + 1 =>
      match pyGroup caps (i + 1) with
      | some g =>
        if g.length > 1 && ! extractStopwords.contains (pyLower g) then some (pyStrip g)
        else go i
      | none => go i

/-- Collapse each whitespace run to a single underscore (`re.sub(r'[\s]+', '_', ·)`). -/
def collapseWs (l : List Char) : List Char :=
  go false l
where
  go : Bool → List Char → List Char
    | _, [] => []
    | inRun, c :: s =>
      if wsp c then (if inRun then go true s else '_' :: go true s)
      else c :: go false s

/-- `CommandParser._sanitize_name`: lower-case, drop characters outside
`[\w\s-]` (ASCII in this model), collapse whitespace to underscores,
defaulting to `"project"` when empty. -/
def sanitize_name (name : String) : String :=
  let n1 : List Char := (pyLower name).data.filter (fun c => wordc c || wsp c || c == '-')
  let n2 : String := ⟨collapseWs (pyStrip ⟨n1⟩).data⟩
  pyOrS n2 "project"

/-- `_plan_create_project`. -/
def plan_create_project (ctx : ParserCtx) (name : String) : Plan :=
  let path := ctx.project_root ++ "/" ++ name
  { intent := "create_project"
    name := some name
    path := some path
    actions :=
      [ { tool := "mkdir", args := jobj1 "path" path },
        { tool := "git_init", args := jobj1 "path" path },
        { tool := "write", args := JVal.jobj
            [("path", JVal.jstr (path ++ "/README.md")),
             ("content", JVal.jstr ("# " ++ name ++ "\n\nAuto-generated project.\n"))] },
        { tool := "git_commit", args := JVal.jobj
            [("path", JVal.jstr path),
             ("message", JVal.jstr ("init: " ++ name))] } ] }

/-- `_plan_create_api`. -/
def plan_create_api (ctx : ParserCtx) : Plan :=
  let name := "api_server"
  let path := ctx.project_root ++ "/" ++ name
  { intent := "create_api"
    name := some name
    path := some path
    actions :=
      [ { tool := "mkdir", args := jobj1 "path" path },
        { tool := "git_init", args := jobj1 "path" path },
        { tool := "write", args := JVal.jobj
            [("path", JVal.jstr (path ++ "/server.py")),
             ("content", JVal.jstr apiServerTemplate)] },
        { tool := "write", args := JVal.jobj
            [("path", JVal.jstr (path ++ "/test_server.py")),
             ("content", JVal.jstr apiTestTemplate)] },
        { tool := "test", args := jobj1 "path" path },
        { tool := "git_commit", args := JVal.jobj
            [("path", JVal.jstr path),
             ("message", JVal.jstr "feat: REST API server with CRUD and tests")] } ] }

/-- `_plan_create_tool`. -/
def plan_create_tool (ctx : ParserCtx) (description : String) : Plan :=
  let name := pyOrS (sanitize_name description) "cli_tool"
  let path := ctx.project_root ++ "/" ++ name
  { intent := "create_tool"
    name := some name
    description := some description
    path := some path
    actions :=
      [ { tool := "mkdir", args := jobj1 "path" path },
        { tool := "git_init", args := jobj1 "path" path } ]
    requires_generation := true }

/-- `_plan_add_feature`. -/
def plan_add_feature (feature : String) : Plan :=
  { intent := "add_feature", feature := some feature, actions := []
    requires_generation := true }

/-- `_plan_run_tests`. -/
def plan_run_tests (ctx : ParserCtx) : Plan :=
  match ctx.latest_project with
  | some latest =>
    { intent := "run_tests", path := some latest
      actions := [{ tool := "test", args := jobj1 "path" latest }] }
  | none =>
    { intent := "run_tests"
      actions := [{ tool := "ls", args := jobj1 "path" ctx.project_root }]
      error := some "No projects found" }

/-- `_plan_build`. -/
def plan_build (ctx : ParserCtx) : Plan :=
  match ctx.latest_project with
  | none => { intent := "build", actions := [], error := some "No project found" }
  | some latest =>
    { intent := "build", path := some latest
      actions := [{ tool := "run", args := JVal.jobj [
        ("command", JVal.jstr
            "python3 -m py_compile *.py 2>&1 || make 2>&1 || echo \x27No build system detected\x27"),
        ("cwd", JVal.jstr latest)] }] }

/-- The literal Dockerfile payload of `_plan_dockerize`. -/
def dockerfileTemplate : String :=
  "FROM python:3.12-alpine\n"
    ++ "WORKDIR /app\n"
    ++ "COPY . .\n"
    ++ "RUN pip install --no-cache-dir -r requirements.txt 2>/dev/null || true\n"
    ++ "EXPOSE 8080\n"
    ++ "CMD [\"python3\", \"main.py\"]\n"

/-- The compose payload of `_plan_dockerize` (an f-string over the name). -/
def composeTemplate (name : String) : String :=
  "version: \x273.8\x27\n"
    ++ "services:\n"
    ++ "  " ++ name ++ ":\n"
    ++ "    build: .\n"
    ++ "    ports:\n"
    ++ "      - \"8080:8080\"\n"
    ++ "    restart: unless-stopped\n"

/-- `_plan_dockerize`. -/
def plan_dockerize (ctx : ParserCtx) : Plan :=
  match ctx.latest_project with
  | none => { intent := "dockerize", actions := [], error := some "No project found" }
  | some latest =>
    let name := pyBasename latest
    { intent := "dockerize", path := some latest
      actions :=
        [ { tool := "write", args := JVal.jobj
              [("path", JVal.jstr (latest ++ "/Dockerfile")),
               ("content", JVal.jstr dockerfileTemplate)] },
          { tool := "write", args := JVal.jobj
              [("path", JVal.jstr (latest ++ "/docker-compose.yml")),
               ("content", JVal.jstr (composeTemplate name))] },
          { tool := "git_commit", args := JVal.jobj
              [("path", JVal.jstr latest),
               ("message", JVal.jstr "feat: add Docker support")] } ] }

/-- `_plan_git_op`. -/
def plan_git_op (ctx : ParserCtx) (raw : String) : Plan :=
  let path := (ctx.latest_project).getD ctx.project_root
  let rawl := pyLower raw
  if containsSub rawl "commit" || containsSub rawl "kaydet" then
    { intent := "git_commit"
      actions := [{ tool := "git_commit", args := JVal.jobj [
        ("path", JVal.jstr path), ("message", JVal.jstr "auto: checkpoint commit")] }] }
  else if containsSub rawl "status" then
    { intent := "git_status", actions := [{ tool := "git_status", args := jobj1 "path" path }] }
  else if containsSub rawl "log" then
    { intent := "git_log", actions := [{ tool := "git_log", args := jobj1 "path" path }] }
  else
    { intent := "git_op", actions := [{ tool := "run", args := jobj1 "command" raw }] }

/-- `_plan_fix`. -/
def plan_fix (ctx : ParserCtx) (description : String) : Plan :=
  { intent := "fix", description := some description, path := ctx.latest_project
    actions := [], requires_generation := true }

/-- `CommandParser._build_plan`: dispatch on the matched intent.  (Group
accesses are guarded by `lastindex` exactly as in the source; a group that
participated is present in `caps`.) -/
def build_plan (ctx : ParserCtx) (intent : String) (caps : Caps) (raw_text : String) : Plan :=
  if intent == "create_project" then
    let name := pyOrOpt (extract_name caps) "new_project"
    plan_create_project ctx (sanitize_name name)
  else if intent == "create_api" then
    plan_create_api ctx
  else if intent == "create_tool" then
    let desc := if pyLastIndex caps ≥ 3 then (pyGroup caps 3).getD "" else raw_text
    plan_create_tool ctx (pyStrip desc)
  else if intent == "add_feature" then
    let feature := if pyLastIndex caps ≥ 2 then (pyGroup caps 2).getD "" else raw_text
    plan_add_feature (pyStrip feature)
  else if intent == "run_tests" then
    plan_run_tests ctx
  else if intent == "build" then
    plan_build ctx
  else if intent == "dockerize" then
    plan_dockerize ctx
  else if intent == "git_op" then
    plan_git_op ctx raw_text
  else if intent == "list" then
    let target := if pyLastIndex caps ≥ 2 then (pyGroup caps 2).getD "" else ctx.project_root
    { intent := "list"
      actions := [{ tool := "ls", args := jobj1 "path" (pyOrS (pyStrip target) ctx.project_root) }] }
  else if intent == "read_file" then
    let filepath := if pyLastIndex caps ≥ 2 then (pyGroup caps 2).getD "" else ""
    { intent := "read_file", actions := [{ tool := "read", args := jobj1 "path" (pyStrip filepath) }] }
  else if intent == "fix" then
    let desc := if pyLastIndex caps ≥ 2 then (pyGroup caps 2).getD "" else raw_text
    plan_fix ctx (pyStrip desc)
  else if intent == "shell" then
    { intent := "shell", raw := some raw_text
      actions := [{ tool := "run", args := jobj1 "command" raw_text }] }
  else
    { intent := "unknown", raw := some raw_text, actions := [] }

/-- Try the patterns of one catalog entry in declared order. -/
def firstPat (ps : List RE) (text : String) : Option Caps :=
  match ps with
  | [] => none
  | p :: rest =>
    match reMatch p text with
    | some caps => some caps
    | none => firstPat rest text

/-- Try the catalog entries in declared order; first matching pattern wins. -/
def firstIntent (entries : List (List RE × String)) (text : String) : Option (String × Caps) :=
  match entries with
  | [] => none
  | e :: rest =>
    match firstPat e.fst text with
    | some caps => some (e.snd, caps)
    | none => firstIntent rest text

/-- `CommandParser.parse`: strip, `TOOL:` protocol first, then the intent
catalog in declared order, then the raw-shell fallback. -/
def parse (ctx : ParserCtx) (input_text : String) : Option Plan :=
  let text := pyStrip input_text
  if text = "" then none
  else if pyStartsWith text "TOOL:" then parse_tool_protocol text
  else
    match firstIntent INTENT_PATTERNS text with
    | some ic => some (build_plan ctx ic.fst ic.snd text)
    | none =>
      some { intent := "shell", raw := some text
             actions := [{ tool := "run", args := jobj1 "command" text }] }

/-! # Claim theorems -/

/-! ## Helper lemmas -/

/-- Containment is monotone: if `b` occurs inside `a` and `a` occurs in `s`,
then `b` occurs in `s`. -/
theorem containsSub_mono {s a b : String} (hab : b.data <:+: a.data)
    (h : containsSub s a = true) : containsSub s b = true := by
  simp only [containsSub, decide_eq_true_eq] at h ⊢
  exact hab.trans h

/-- The traceback marker indicator string. -/
def tracebackMarker : String := "Traceback (most recent call last)"

/-- Output containing the full traceback marker always classifies as failing:
the marker is a failure indicator and defeats the success override. -/
theorem is_test_failure_of_marker {s : String}
    (h : containsSub s tracebackMarker = true) : is_test_failure (some s) = true := by
  have htb : containsSub s "Traceback" = true :=
    containsSub_mono (by decide) h
  have hfail : failure_indicators.any (fun ind => containsSub s ind) = true := by
    apply List.any_eq_true.mpr
    exact ⟨tracebackMarker, by unfold failure_indicators tracebackMarker; exact .head _, h⟩
  unfold is_test_failure
  simp [htb, hfail]

/-- When the error text does not mention `syntaxerror`, `_pattern_repair`
returns normally (no exception can escape). -/
theorem pattern_repair_rest_ok (env : Env) (el e : String) :
    ∃ b, pattern_repair.pattern_repair_rest env el e = Except.ok b := by
  unfold pattern_repair.pattern_repair_rest
  dsimp only
  repeat' split
  all_goals first | exact ⟨true, rfl⟩ | exact ⟨false, rfl⟩

/-- Same statement at the level of `pattern_repair`. -/
theorem pattern_repair_ok_of_no_syntaxerror (env : Env) (e : String)
    (h : containsSub (pyLower e) "syntaxerror" = false) :
    ∃ b, pattern_repair env e = Except.ok b := by
  unfold pattern_repair
  dsimp only
  rw [h]
  simp only [Bool.false_eq_true, if_false]
  split
  · exact ⟨false, rfl⟩
  · exact pattern_repair_rest_ok env (pyLower e) e

/-- Under a no-LLM environment whose checks always fail with a full
traceback and never mention `syntaxerror`, every run of the repair loop
appends exactly the single failure stage, performs at most `left` further
check runs, and reports no fix. -/
theorem repairGo_all_fail (env : Env) (goal : Goal) (pp c : String)
    (hc : goal.test_cmd = some c)
    (hl : env.llmAvailable = false)
    (hm : ∀ i, containsSub (env.run i c) tracebackMarker = true)
    (hs : ∀ i, containsSub (pyLower (env.run i c)) "syntaxerror" = false) :
    ∀ left idx, ∃ idx2,
      repairGo env goal pp left idx = ([repairFailStage], idx2, Except.ok false)
      ∧ idx2 ≤ idx + left := by
  intro left
  induction left with
  | zero => exact fun idx => ⟨idx, rfl, Nat.le_refl _⟩
  | succ n ih =>
    intro idx
    unfold repairGo
    dsimp only
    rw [hc]
    simp only [Option.getD_some]
    have h1 : is_test_failure (some (env.run idx c)) = true :=
      is_test_failure_of_marker (hm idx)
    rw [h1, hl]
    simp only [Bool.not_true, Bool.false_eq_true, if_false]
    obtain ⟨b, hb⟩ := pattern_repair_ok_of_no_syntaxerror env (env.run idx c) (hs idx)
    rw [hb]
    cases b with
    | false => exact ⟨idx + 1, rfl, by omega⟩
    | true =>
      obtain ⟨idx2, h2, h3⟩ := ih (idx + 1)
      exact ⟨idx2, by simpa using h2, by omega⟩

/-- C1: every check output containing a success indicator ("OK", "passed",
or trimmed output ending in the digit 0) and not containing "Traceback" is
classified as passing by `_is_test_failure`, whatever failure indicators
also occur. -/
theorem c1_success_marker_precedence (s : String)
    (hs : containsSub s "OK" = true ∨ containsSub s "passed" = true
      ∨ pyEndsWith (pyStrip s) "0" = true)
    (ht : containsSub s "Traceback" = false) :
    is_test_failure (some s) = false := by
  unfold is_test_failure
  dsimp only
  rw [ht]
  rcases hs with h | h | h <;> simp [h]

/-- C1 witness: the output "3 tests, 1 error, OK" contains "OK", no
traceback marker, and is classified as passing. -/
theorem c1_witness :
    containsSub "3 tests, 1 error, OK" "OK" = true
    ∧ containsSub "3 tests, 1 error, OK" "Traceback" = false
    ∧ is_test_failure (some "3 tests, 1 error, OK") = false :=
  ⟨by decide, by decide,
    c1_success_marker_precedence "3 tests, 1 error, OK" (Or.inl (by decide)) (by decide)⟩

/-- C9: absent check output (`None`) is classified as failing: missing
verification output is never treated as a pass. -/
theorem c9_none_output_is_failure : is_test_failure none = true := rfl

/-- C2: a goal with literal file contents and a test command whose run
output is exactly "OK" executes successfully with exactly the four stages
setup, codegen, verify, commit, all ok — no repair stage. -/
theorem c2_literal_files_ok (env : Env) (goal : Goal) (project_path : String)
    (fs : List (String × String)) (c : String)
    (hf : goal.files = some fs) (hc : goal.test_cmd = some c)
    (hout : env.run 0 c = "OK") :
    (execute_goal env goal project_path).1 = true
    ∧ ((execute_goal env goal project_path).2.stages.map (fun st => (st.name, st.status)))
      = [("setup", "ok"), ("codegen", "ok"), ("verify", "ok"), ("commit", "ok")] := by
  have hok : is_test_failure (some "OK") = false := by decide
  unfold execute_goal stage_codegen stage_verify
  cases hpe : env.pathExists <;>
    simp [hf, hc, hout, hok, stage_setup, stage_commit, hpe]

/-- C2 witness: a concrete such run. -/
def envRunOk : Env :=
  { pathExists := false, run := fun _ _ => "OK", commitResult := "committed"
    llmAvailable := false, llmPlan := fun _ => none, llmCode := fun _ _ => none
    llmFix := fun _ _ _ => none, readFile := fun _ => "", pyFiles := []
    projectTypes := ["python"] }

/-- The goal used by the C2 witness. -/
def goalLiteral : Goal :=
  { description := some "demo", files := some [("a.py", "print(1)")]
    test_cmd := some "pytest" }

/-- C2 witness theorem. -/
theorem c2_witness :
    (execute_goal envRunOk goalLiteral "/projects/demo").1 = true
    ∧ ((execute_goal envRunOk goalLiteral "/projects/demo").2.stages.map
        (fun st => (st.name, st.status)))
      = [("setup", "ok"), ("codegen", "ok"), ("verify", "ok"), ("commit", "ok")] :=
  c2_literal_files_ok envRunOk goalLiteral "/projects/demo" [("a.py", "print(1)")] "pytest"
    rfl rfl rfl

/-- If an attempt finds a failing check but applies no fix, the repair loop
stops right after that attempt, whatever the remaining attempt budget. -/
theorem repairGo_stops_without_fix (env : Env) (goal : Goal) (pp c : String)
    (hc : goal.test_cmd = some c) (hl : env.llmAvailable = false)
    (left idx : Nat)
    (h1 : is_test_failure (some (env.run idx c)) = true)
    (hpr : pattern_repair env (env.run idx c) = Except.ok false) :
    repairGo env goal pp (left + 1) idx = ([repairFailStage], idx + 1, Except.ok false) := by
  unfold repairGo
  dsimp only
  rw [hc]
  simp only [Option.getD_some]
  rw [h1, hl]
  simp only [Bool.not_true, Bool.false_eq_true, if_false]
  rw [hpr]
  rfl

/-- C3 (amended): with no generation backend, a goal whose test command
always prints the full traceback marker — and never the token
`syntaxerror`, which would crash `_pattern_repair` (see the C4 bug) —
fails with stage sequence setup, codegen, verify(fail), repair(fail):
exactly one repair stage, at most 3 repair check runs (run indices 1..3),
and an immediate stop when an attempt applies no fix. -/
theorem c3_traceback_repair_exhaustion (env : Env) (goal : Goal)
    (project_path c : String)
    (hc : goal.test_cmd = some c)
    (hl : env.llmAvailable = false)
    (hm : ∀ i, containsSub (env.run i c) tracebackMarker = true)
    (hs : ∀ i, containsSub (pyLower (env.run i c)) "syntaxerror" = false) :
    (execute_goal env goal project_path).1 = false
    ∧ ((execute_goal env goal project_path).2.stages.map (fun st => (st.name, st.status)))
      = [("setup", "ok"), ("codegen", "ok"), ("verify", "fail"), ("repair", "fail")]
    ∧ (stage_repair env goal project_path 1).2.1 ≤ 4
    ∧ (pattern_repair env (env.run 1 c) = Except.ok false →
        (stage_repair env goal project_path 1).2.1 = 2) := by
  obtain ⟨idx2, hrep, hle⟩ := repairGo_all_fail env goal project_path c hc hl hm hs 3 1
  have hsr : stage_repair env goal project_path 1
      = ([repairFailStage], idx2, Except.ok false) := hrep
  have h0 : is_test_failure (some (env.run 0 c)) = true :=
    is_test_failure_of_marker (hm 0)
  refine ⟨?_, ?_, ?_, ?_⟩
  · unfold execute_goal stage_codegen stage_verify
    cases hgf : goal.files <;> cases hpe : env.pathExists <;>
      simp [hc, h0, hl, hsr, stage_setup, hpe, hgf, repairFailStage]
  · unfold execute_goal stage_codegen stage_verify
    cases hgf : goal.files <;> cases hpe : env.pathExists <;>
      simp [hc, h0, hl, hsr, stage_setup, hpe, hgf, repairFailStage]
  · rw [hsr]
    exact hle
  · intro hpr
    have h1 : is_test_failure (some (env.run 1 c)) = true :=
      is_test_failure_of_marker (hm 1)
    have h2 : repairGo env goal project_path 3 1 = ([repairFailStage], 2, Except.ok false) :=
      repairGo_stops_without_fix env goal project_path c hc hl 2 1 h1 hpr
    have h3 : stage_repair env goal project_path 1
        = ([repairFailStage], 2, Except.ok false) := h2
    rw [h3]

/-- The environment of the C3 counterexample: every check run prints
exactly "Traceback" (which does contain the substring "Traceback"). -/
def envTracebackWord : Env :=
  { pathExists := false, run := fun _ _ => "Traceback", commitResult := "committed"
    llmAvailable := false, llmPlan := fun _ => none, llmCode := fun _ _ => none
    llmFix := fun _ _ _ => none, readFile := fun _ => "", pyFiles := []
    projectTypes := [] }

/-- The goal of the C3 counterexample and witness. -/
def goalWithTest : Goal := { description := some "g", test_cmd := some "t" }

/-- C3 counterexample: with output exactly "Traceback" on every run — so
every output contains the substring "Traceback" — the classifier sees no
failure indicator (the indicator is the full marker), verification passes,
no repair stage is entered, and the pipeline succeeds: the claim as stated
(success = false with one failing repair stage) is false for this goal. -/
theorem c3_counterexample :
    containsSub (envTracebackWord.run 0 "t") "Traceback" = true
    ∧ (execute_goal envTracebackWord goalWithTest "/p").1 = true
    ∧ ((execute_goal envTracebackWord goalWithTest "/p").2.stages.filter
        (fun st => st.name == "repair")) = [] := by
  refine ⟨by decide, by decide, by decide⟩

/-- The environment of the C3 witness: every check run prints a full
traceback. -/
def envTracebackFull : Env :=
  { envTracebackWord with
    run := fun _ _ => "Traceback (most recent call last):\n  boom" }

/-- C3 witness: the amended theorem applied at a concrete goal and
environment. -/
theorem c3_witness :
    (execute_goal envTracebackFull goalWithTest "/p").1 = false
    ∧ ((execute_goal envTracebackFull goalWithTest "/p").2.stages.map
        (fun st => (st.name, st.status)))
      = [("setup", "ok"), ("codegen", "ok"), ("verify", "fail"), ("repair", "fail")]
    ∧ (stage_repair envTracebackFull goalWithTest "/p" 1).2.1 ≤ 4
    ∧ (pattern_repair envTracebackFull (envTracebackFull.run 1 "t") = Except.ok false →
        (stage_repair envTracebackFull goalWithTest "/p" 1).2.1 = 2) :=
  c3_traceback_repair_exhaustion envTracebackFull goalWithTest "/p" "t"
    rfl rfl (fun _ => rfl) (fun _ => rfl)

/-- A minimal environment for evaluating `_pattern_repair` (the
`syntaxerror` path touches no oracle field). -/
def envMinimal : Env :=
  { pathExists := false, run := fun _ _ => "", commitResult := ""
    llmAvailable := false, llmPlan := fun _ => none, llmCode := fun _ _ => none
    llmFix := fun _ _ _ => none, readFile := fun _ => "", pyFiles := []
    projectTypes := [] }

/-- A typical syntax-error check output (no import-error tokens). -/
def syntaxErrOutput : String :=
  "  File \"main.py\", line 3\nSyntaxError: invalid syntax"

/-- C4 (code bug): on an output whose lower-casing contains "syntaxerror"
and which matches no earlier rule, `_pattern_repair` does not return
normally: `re` is only imported inside the earlier import-error branch, so
the `re.search` call of the syntax-error branch raises UnboundLocalError.
The second conjunct shows the file/line extraction the rule intends is
well-defined on this input; the third shows the code instead raises. -/
theorem c4_syntaxerror_branch_raises :
    containsSub (pyLower syntaxErrOutput) "syntaxerror" = true
    ∧ (reSearch fileLineRE syntaxErrOutput).isSome = true
    ∧ pattern_repair envMinimal syntaxErrOutput = Except.error unboundLocalRe :=
  ⟨rfl, rfl, rfl⟩

/-- C5 counterexample: the tab character is an ASCII control character
other than newline, yet `sanitize_input` keeps it (its removal class
excludes `\x09`, `\x0a` and `\x0d`), so "removes all ASCII control
characters except newline" is false. -/
theorem c5_counterexample :
    sanitize_input "a\tb" = "a\tb" ∧ ("a\tb" : String) ≠ "ab" :=
  ⟨rfl, by decide⟩

/-- C5 (amended): `sanitize_input` removes all ASCII control characters
except newline, tab and carriage return, truncates to at most 4096
characters, returns a subsequence of its input, and on a 5000-character
input returns exactly the first 4096 characters of the stripped text. -/
theorem c5_sanitize_input :
    (∀ s : String,
      (sanitize_input s).length ≤ 4096
      ∧ (sanitize_input s).data.all (fun c => ! ctlStripped c) = true
      ∧ (sanitize_input s).data.Sublist s.data)
    ∧ sanitize_input ⟨List.replicate 5000 'a'⟩ = ⟨List.replicate 4096 'a'⟩ := by
  constructor
  · intro s
    unfold sanitize_input
    split
    · refine ⟨by simp, by simp, by simp⟩
    · refine ⟨?_, ?_, ?_⟩
      · exact List.length_take_le 4096 _
      · rw [List.all_eq_true]
        intro c hc
        have := List.mem_of_mem_take hc
        simpa using (List.of_mem_filter this)
      · exact (List.take_sublist _ _).trans (List.filter_sublist s.data)
  · have hne : (⟨List.replicate 5000 'a'⟩ : String) ≠ "" := by
      intro h
      have h2 : List.replicate 5000 'a' = [] := congrArg String.data h
      have h3 := congrArg List.length h2
      simp only [List.length_replicate, List.length_nil] at h3
      omega
    unfold sanitize_input
    rw [if_neg hne]
    have hfilter : (List.replicate 5000 'a').filter (fun c => ! ctlStripped c)
        = List.replicate 5000 'a' := by
      apply List.filter_eq_self.mpr
      intro c hc
      rw [List.eq_of_mem_replicate hc]
      decide
    rw [hfilter, List.take_replicate]
    norm_num

/-- The default parser context (`project_root = "/projects"`, no latest
project scanned). -/
def defaultCtx : ParserCtx := {}

/-- The plan that C6 requires for `parse("create project foo")`. -/
def createProjectFooPlan : Plan :=
  { intent := "create_project", name := some "foo", path := some "/projects/foo"
    actions :=
      [ { tool := "mkdir", args := jobj1 "path" "/projects/foo" },
        { tool := "git_init", args := jobj1 "path" "/projects/foo" },
        { tool := "write",
          args := JVal.jobj [("path", JVal.jstr "/projects/foo/README.md"), ("content", JVal.jstr "# foo\n\nAuto-generated project.\n")] },
        { tool := "git_commit",
          args := JVal.jobj [("path", JVal.jstr "/projects/foo"), ("message", JVal.jstr "init: foo")] } ] }

/-- C6: `parse("create project foo")` yields intent create_project,
sanitized name "foo" and exactly the four actions mkdir, git_init,
write-README, git_commit in that order; moreover the later create_tool
entry's pattern also matches this input, so the declared entry order is
what makes the project-creation intent win. -/
theorem c6_create_project_foo :
    parse defaultCtx "create project foo" = some createProjectFooPlan
    ∧ createProjectFooPlan.actions.map (fun a => a.tool)
      = ["mkdir", "git_init", "write", "git_commit"]
    ∧ reMatchB ctPat1 "create project foo" = true :=
  ⟨rfl, rfl, rfl⟩

/-- C7: any command matched by a forbidden pattern is unsafe; a benign
command matching none of them is safe. -/
theorem c7_forbidden_blocklist :
    (∀ cmd : String,
      (∃ p, p ∈ FORBIDDEN_PATTERNS ∧ reSearchB p cmd = true) →
      is_safe_command cmd = false)
    ∧ is_safe_command "echo hi" = true := by
  constructor
  · rintro cmd ⟨p, hp, hmatch⟩
    have hany : FORBIDDEN_PATTERNS.any (fun q => reSearchB q cmd) = true :=
      List.any_eq_true.mpr ⟨p, hp, hmatch⟩
    unfold is_safe_command
    rw [hany]
    rfl
  · decide

/-- C7 witness: the root-deletion pattern matches "rm -rf /", which is
therefore blocked. -/
theorem c7_witness : is_safe_command "rm -rf /" = false :=
  c7_forbidden_blocklist.1 "rm -rf /"
    ⟨fpRmRfRoot, by unfold FORBIDDEN_PATTERNS; exact List.mem_cons_self _ _, by decide⟩

/-- A fresh store with empty pattern lists, used by the C8 eviction run. -/
def memEmpty : MemStore :=
  { state := default_state, projects := [], patterns := default_patterns }

/-- The pattern record produced by the `i`-th call of the C8 eviction run. -/
def c8Entry (i : Nat) : PatternRec :=
  { goal := toString i, approach := [], timestamp := i }

set_option maxRecDepth 8192 in
/-- C8: each success/failure record keeps its list at no more than 100
entries and bumps the matching counter by one; and 101 consecutive
`record_success` calls starting from empty leave exactly 100 entries, the
2nd through 101st in order (the oldest evicted). -/
theorem c8_pattern_archive_cap :
    (∀ (m : MemStore) (g : String) (a : List String) (t : Nat),
      ((record_success m g a t).1.patterns.successful_patterns).length ≤ 100
      ∧ (record_success m g a t).1.state.total_goals_completed
        = m.state.total_goals_completed + 1)
    ∧ (∀ (m : MemStore) (g : String) (a : List String) (e : String) (t : Nat),
      ((record_failure m g a e t).1.patterns.failed_patterns).length ≤ 100
      ∧ (record_failure m g a e t).1.state.total_goals_failed
        = m.state.total_goals_failed + 1)
    ∧ ((List.range 101).foldl (fun m i => (record_success m (toString i) [] i).1)
        memEmpty).patterns.successful_patterns
      = ((List.range 101).drop 1).map c8Entry := by
  refine ⟨?_, ?_, ?_⟩
  · intro m g a t
    refine ⟨?_, rfl⟩
    unfold record_success pyLastN
    dsimp only
    rw [List.length_drop]
    omega
  · intro m g a e t
    refine ⟨?_, rfl⟩
    unfold record_failure pyLastN
    dsimp only
    rw [List.length_drop]
    omega
  · decide

/-- C10: constructing the memory store increments the loaded boot counter
by exactly one, stamps the boot time, leaves the other four state fields
and the other collections at their loaded (or default) values, and
persists exactly the updated state file. -/
theorem c10_memory_init_boot (ls : Option AgentState)
    (lp : Option (List (String × ProjectRec))) (lpat : Option Patterns) (now : Nat) :
    (memory_init ls lp lpat now).1.state.boot_count
      = (ls.getD default_state).boot_count + 1
    ∧ (memory_init ls lp lpat now).1.state.last_boot = some now
    ∧ (memory_init ls lp lpat now).1.state.total_goals_completed
      = (ls.getD default_state).total_goals_completed
    ∧ (memory_init ls lp lpat now).1.state.total_goals_failed
      = (ls.getD default_state).total_goals_failed
    ∧ (memory_init ls lp lpat now).1.state.total_commands_executed
      = (ls.getD default_state).total_commands_executed
    ∧ (memory_init ls lp lpat now).1.state.last_active_project
      = (ls.getD default_state).last_active_project
    ∧ (memory_init ls lp lpat now).1.projects = lp.getD []
    ∧ (memory_init ls lp lpat now).1.patterns = lpat.getD default_patterns
    ∧ (memory_init ls lp lpat now).2
      = [SaveEvent.stateFile (memory_init ls lp lpat now).1.state] :=
  ⟨rfl, rfl, rfl, rfl, rfl, rfl, rfl, rfl, rfl⟩

end DevOS
